import Mathlib

/-!
Verification of the halo-mcp authentication/session lifecycle and
assignment-submission orchestration (src/auth.py, src/config.py,
src/request.py, src/submission.py).

The Python code is shallowly embedded: JSON values become `JVal`,
the config.json store becomes an association list, every network
round trip is recorded as an `Effect` in an explicit trace, and the
remote responses are passed in as parameters. Python exceptions
become the `Err` error type of an `Except` result.
-/

/-- JSON-like values, as produced by `resp.json()` and stored in config.json. -/
inductive JVal where
  | jnull
  | jbool (b : Bool)
  | jnum (n : Int)
  | jstr (s : String)
  | jarr (elems : List JVal)
  | jobj (fields : List (String × JVal))


/-- A JSON object, as an association list of fields (dict insertion order). -/
abbrev JObj := List (String × JVal)

/-- Key lookup in a JSON object: Python `data.get(key)` / `key in data`. -/
def jget : JObj → String → Option JVal
  | [], _ => none
  | (k, v) :: rest, key => if k = key then some v else jget rest key

/-- Key assignment in a JSON object: Python `data[key] = v`
(updates in place if the key exists, appends otherwise). -/
def jset : JObj → String → JVal → JObj
  | [], key, v => [(key, v)]
  | (k, w) :: rest, key, v =>
    if k = key then (key, v) :: rest else (k, w) :: jset rest key v

/-- Lookup in a string-valued dict (cookies, headers, environ). -/
def lookup_str : List (String × String) → String → Option String
  | [], _ => none
  | (k, v) :: rest, key => if k = key then some v else lookup_str rest key

/-- Assignment in a string-valued dict. -/
def str_set : List (String × String) → String → String → List (String × String)
  | [], key, v => [(key, v)]
  | (k, w) :: rest, key, v =>
    if k = key then (key, v) :: rest else (k, w) :: str_set rest key v

/-- Python truthiness of a JSON value (`if not x`). -/
def truthy : JVal → Bool
  | .jnull => false
  | .jbool b => b
  | .jnum n => n != 0
  | .jstr s => s != ""
  | .jarr elems => !elems.isEmpty
  | .jobj fields => !fields.isEmpty

/-- Python truthiness of an optional JSON value (`.get` result, None is falsy). -/
def otruthy : Option JVal → Bool
  | none => false
  | some v => truthy v

/-- Python `str()` rendering, as used in f-string interpolation.
The flows only ever interpolate strings; other cases are coarse renderings. -/
def pyStr : JVal → String
  | .jnull => "None"
  | .jbool true => "True"
  | .jbool false => "False"
  | .jnum n => toString n
  | .jstr s => s
  | .jarr _ => "<list>"
  | .jobj _ => "<dict>"

/-- Does `pat` occur at the start of `hay`? (char-list test). -/
def starts_with : List Char → List Char → Bool
  | [], _ => true
  | _ :: _, [] => false
  | p :: ps, c :: cs => p == c && starts_with ps cs

/-- Does `pat` occur anywhere in `hay`? (char-list substring test). -/
def has_sub : List Char → List Char → Bool
  | [], pat => starts_with pat []
  | c :: rest, pat => starts_with pat (c :: rest) || has_sub rest pat

/-- Python `pat in s` substring test. -/
def strContains (s pat : String) : Bool := has_sub s.data pat.data

/-- ASCII lower-casing of one character (Python `.lower()` on the
ASCII identifiers the code compares). -/
def lower_char (c : Char) : Char :=
  if 65 ≤ c.toNat && c.toNat ≤ 90 then Char.ofNat (c.toNat + 32) else c

/-- Python `.lower()`. -/
def str_lower (s : String) : String := String.mk (s.data.map lower_char)

/-- Python `.get(key)` on a parsed JSON object (None default).
The flows apply it only to values produced as JSON objects. -/
def py_get (v : JVal) (key : String) : Option JVal :=
  match v with
  | .jobj fields => jget fields key
  | _ => none

/-- The errors the embedded code can raise. `runtimeError`, `keyError`,
`indexError`, `typeError` and `valueError` mirror the Python exceptions;
`httpStatusError` models `raise_for_status` on a non-2xx response;
`haloTokenExpired` / `haloAPIError` mirror the classes in request.py. -/
inductive Err where
  | runtimeError (msg : String)
  | keyError (key : String)
  | indexError (msg : String)
  | typeError
  | valueError (msg : String)
  | httpStatusError (code : Nat)
  | haloTokenExpired (op : String) (messages : List JVal)
  | haloAPIError (op : String) (messages : List JVal)


/-- One network round trip issued by the code, in issue order.
`gqlPost` records the GraphQL POST of `execute` (operation name and
variables; the static query-string constant is omitted), `restPost` the
orchestration-API POST of `execute_rest_post`, `s3Put` the raw byte PUT
of `upload_to_s3`, and `httpGet` / `httpPostForm` the httpx calls made
directly by auth.py. -/
inductive Effect where
  | httpGet (url : String) (headers : List (String × String))
  | httpPostForm (url : String) (formData : List (String × String))
  | gqlPost (op : String) (vars : JObj)
  | restPost (op : String) (path : String) (body : JVal)
  | s3Put (url : String) (fileBytes : List Nat) (contentType : String)


/-- request.py `_check_for_auth_errors`, inner per-error test: is this
GraphQL error an authentication/token error? -/
def is_auth_error (error : JVal) : Bool :=
  let ext := (py_get error "extensions").getD (.jobj [])
  let errorCode := py_get ext "errorCode"
  let message :=
    str_lower (match (py_get error "message").getD (.jstr "") with
     | .jstr s => s
     | _ => "")
  (match errorCode with
   | some (.jnum 401) => true
   | _ => false)
  || strContains message "unauthorized"
  || (strContains message "invalid"
      && (strContains message "token" || strContains message "jwt"
          || strContains message "jwe" || strContains message "jws"))
  || strContains message "expired"
  || (strContains message "authentication" && strContains message "failed")

/-- request.py `_check_for_auth_errors`, called when `"errors"` is present:
classifies the error list and always raises. -/
def check_for_auth_errors (op : String) (errors : List JVal) : Err :=
  let messages := errors.map (fun e => (py_get e "message").getD (.jstr "Unknown error"))
  if errors.any is_auth_error then .haloTokenExpired op messages
  else .haloAPIError op messages

/-- request.py `HaloRequest.execute`: GraphQL POST (the response, which is
the business of the server, is a parameter: `.error code` for a non-2xx status,
`.ok body` for parsed JSON). The submission flows set no cleaner, so the
cleaner branch is statically dead and omitted. -/
def gql_execute (op : String) (vars : JObj) (resp : Except Nat JObj) :
    Except Err JObj × List Effect :=
  let trace := [Effect.gqlPost op vars]
  match resp with
  | .error code =>
    if code = 401 then (.error (.haloTokenExpired op [.jstr "HTTP 401 Unauthorized"]), trace)
    else (.error (.httpStatusError code), trace)
  | .ok body =>
    match jget body "errors" with
    | some (.jarr errors) => (.error (check_for_auth_errors op errors), trace)
    | some _ => (.error .typeError, trace)
    | none => (.ok body, trace)

/-- request.py `HaloRequest.execute_rest_post`: REST POST to the
orchestration API. -/
def execute_rest_post (op : String) (path : String) (body : JVal)
    (resp : Except Nat JVal) : Except Err JVal × List Effect :=
  let trace := [Effect.restPost op path body]
  match resp with
  | .error code =>
    if code = 401 then (.error (.haloTokenExpired op [.jstr "HTTP 401 Unauthorized"]), trace)
    else (.error (.httpStatusError code), trace)
  | .ok data => (.ok data, trace)

/-- request.py `upload_to_s3`: raw byte PUT to the presigned URL. -/
def upload_to_s3 (url : String) (fileBytes : List Nat) (contentType : String)
    (resp : Except Nat Unit) : Except Err Unit × List Effect :=
  let trace := [Effect.s3Put url fileBytes contentType]
  match resp with
  | .error code => (.error (.httpStatusError code), trace)
  | .ok _ => (.ok (), trace)

/-- Python `v[key]` subscript on a JSON value: KeyError when the key is
missing, TypeError when the value is not an object. -/
def dict_index (v : JVal) (key : String) : Except Err JVal :=
  match v with
  | .jobj fields =>
    match jget fields key with
    | some x => .ok x
    | none => .error (.keyError key)
  | _ => .error .typeError

/-- Python `v[i]` subscript on a JSON value: IndexError when out of range,
TypeError when the value is not a list. -/
def list_index (v : JVal) (i : Nat) : Except Err JVal :=
  match v with
  | .jarr elems =>
    match elems[i]? with
    | some x => .ok x
    | none => .error (.indexError "list index out of range")
  | _ => .error .typeError

/-- auth.py `SESSION_COOKIE_NAMES`. -/
def SESSION_COOKIE_NAMES : List String :=
  ["__Host-next-auth.csrf-token",
   "__Secure-next-auth.callback-url",
   "__Secure-next-auth.session-token",
   "TE1TX0FVVEg",
   "TE1TX0NPTlRFWFQ"]

/-- auth.py `_get_session_cookies_from_config`: the stored cookie set, or
`none` when the config file is absent, the `sessionCookies` entry is
absent or falsy (for a mapping: empty), or it is not a mapping. -/
def get_session_cookies_from_config (cfgFile : Option JObj) : Option JObj :=
  match cfgFile with
  | none => none
  | some data =>
    match jget data "sessionCookies" with
    | none => none
    | some cookies =>
      if truthy cookies = false then none
      else match cookies with
        | .jobj fields => some fields
        | _ => none

/-- auth.py `_save_tokens`: read-modify-write of config.json, setting
`authToken` then `contextToken`. -/
def save_tokens (cfgFile : Option JObj) (auth_token context_token : JVal) : JObj :=
  let data := cfgFile.getD []
  jset (jset data "authToken" auth_token) "contextToken" context_token

/-- auth.py `refresh_tokens`: the `Cookie` header value,
cookie pairs joined with `; `. -/
def cookie_header (cookies : JObj) : String :=
  String.intercalate "; " (cookies.map (fun kv => kv.1 ++ "=" ++ pyStr kv.2))

/-- The error message of auth.py `refresh_tokens` when no session is stored. -/
def noSessionMsg : String :=
  "No session cookies stored. Run initial setup first:\n  1. Provide authToken/contextToken in config.json\n  2. Call the \x27setup_session\x27 tool to create a long-lived session"

/-- The error message of auth.py `refresh_tokens` when the session cookie
has expired (no userId in the session response). -/
def sessionExpiredMsg : String :=
  "Session cookie has expired. You need to re-authenticate:\n  1. Log into https://halo.gcu.edu in your browser\n  2. Update authToken/contextToken in config.json\n  3. Call the \x27setup_session\x27 tool to create a new session"

/-- auth.py `refresh_tokens`. Inputs: the current config.json contents
(`none` = file absent) and the session endpoint response. Output: the
result (or error), the trace of network calls issued, and the config.json
contents afterwards. -/
def refresh_tokens (cfgFile : Option JObj) (sessionResp : Except Nat JObj) :
    Except Err JVal × List Effect × Option JObj :=
  match get_session_cookies_from_config cfgFile with
  | none => (.error (.runtimeError noSessionMsg), [], cfgFile)
  | some session_cookies =>
    let cookie_str := cookie_header session_cookies
    let trace := [Effect.httpGet "https://halo.gcu.edu/api/auth/session" [("Cookie", cookie_str)]]
    match sessionResp with
    | .error code => (.error (.httpStatusError code), trace, cfgFile)
    | .ok session =>
      if otruthy (jget session "userId") = false then
        (.error (.runtimeError sessionExpiredMsg), trace, cfgFile)
      else
        let auth_token := (jget session "authToken").getD .jnull
        let context_token := (jget session "contextToken").getD .jnull
        if truthy auth_token = false ∨ truthy context_token = false then
          (.error (.runtimeError "Session valid but no tokens returned."), trace, cfgFile)
        else
          (.ok (.jobj [
            ("status", .jstr "refreshed"),
            ("expires", (jget session "expires").getD .jnull),
            ("authToken", auth_token),
            ("contextToken", context_token),
            ("username", (jget session "username").getD .jnull)]),
           trace, some (save_tokens cfgFile auth_token context_token))

/-- The error message of auth.py `create_session` when the long-lived
session cookie is missing from the callback exchange. -/
def tokensInvalidMsg : String :=
  "Failed to obtain session cookies. The provided tokens may be invalid."

/-- The error message of auth.py `create_session` when the session
response has no user data. -/
def noUserDataMsg : String :=
  "Session created but no user data returned. Tokens may be invalid."

/-- auth.py `create_session`, cookie-extraction loop: build the
`session_cookies` dict from the client cookie jar, keeping only the
names in `SESSION_COOKIE_NAMES` (later jar entries overwrite earlier). -/
def collect_session_cookies (jar : List (String × String)) : List (String × String) :=
  jar.foldl (fun acc c =>
    if SESSION_COOKIE_NAMES.contains c.1 then str_set acc c.1 c.2 else acc) []

/-- auth.py `create_session`. Inputs: the caller-supplied token pair, the
CSRF response, the callback response, the client cookie jar after the
callback, and the session response. Output: result (or error) and the
trace of network calls. -/
def create_session (auth_token context_token : String)
    (csrfResp : Except Nat JObj)
    (callbackResp : Except Nat JVal)
    (jar : List (String × String))
    (sessionResp : Except Nat JObj) :
    Except Err JVal × List Effect :=
  let t1 := [Effect.httpGet "https://halo.gcu.edu/api/auth/csrf" []]
  match csrfResp with
  | .error code => (.error (.httpStatusError code), t1)
  | .ok csrfBody =>
    match jget csrfBody "csrfToken" with
    | none => (.error (.keyError "csrfToken"), t1)
    | some csrf_token =>
      let form : List (String × String) := [
        ("csrfToken", pyStr csrf_token),
        ("authToken", auth_token),
        ("contextToken", context_token),
        ("json", "true")]
      let t2 := t1 ++ [Effect.httpPostForm "https://halo.gcu.edu/api/auth/callback/tokens" form]
      match callbackResp with
      | .error code => (.error (.httpStatusError code), t2)
      | .ok _ =>
        let session_cookies := collect_session_cookies jar
        if (lookup_str session_cookies "__Secure-next-auth.session-token").isSome = false then
          (.error (.runtimeError tokensInvalidMsg), t2)
        else
          let t3 := t2 ++ [Effect.httpGet "https://halo.gcu.edu/api/auth/session" []]
          match sessionResp with
          | .error code => (.error (.httpStatusError code), t3)
          | .ok session =>
            if otruthy (jget session "userId") = false then
              (.error (.runtimeError noUserDataMsg), t3)
            else
              (.ok (.jobj [
                ("sessionCookies", .jobj (session_cookies.map (fun kv => (kv.1, JVal.jstr kv.2)))),
                ("expires", (jget session "expires").getD .jnull),
                ("authToken", (jget session "authToken").getD (.jstr auth_token)),
                ("contextToken", (jget session "contextToken").getD (.jstr context_token)),
                ("userId", (jget session "userId").getD .jnull),
                ("username", (jget session "username").getD .jnull)]), t3)

/-- config.py `HaloConfig`. The dataclass declares `str` fields; the
fields hold whatever values actually flowed in, so they are `JVal` here. -/
structure HaloConfig where
  auth_token : JVal
  context_token : JVal
  transaction_id : JVal

/-- Python `os.environ.get(name)`. -/
def env_get (env : List (String × String)) (name : String) : Option String :=
  lookup_str env name

/-- config.py `get_config` (the pure load; the process-level cache of
`_cached_config` only memoizes this value). Inputs: the config.json
contents (`none` = file absent) and the process environment. -/
def get_config (cfgFile : Option JObj) (env : List (String × String)) :
    Except Err HaloConfig :=
  let auth0 : Option JVal :=
    match cfgFile with
    | some data => jget data "authToken"
    | none => none
  let context0 : Option JVal :=
    match cfgFile with
    | some data => jget data "contextToken"
    | none => none
  let txn0 : JVal :=
    match cfgFile with
    | some data => (jget data "transactionId").getD (.jstr "")
    | none => .jstr ""
  let auth1 : Option JVal :=
    match env_get env "HALO_AUTH_TOKEN" with
    | some s => some (.jstr s)
    | none => auth0
  let context1 : Option JVal :=
    match env_get env "HALO_CONTEXT_TOKEN" with
    | some s => some (.jstr s)
    | none => context0
  let txn1 : JVal :=
    match env_get env "HALO_TRANSACTION_ID" with
    | some s => .jstr s
    | none => if truthy txn0 then txn0 else .jstr ""
  if otruthy auth1 = false then
    .error (.valueError "No auth token found. Set HALO_AUTH_TOKEN env var or create HaloMCP/config.json")
  else
    let auth2 := auth1.getD .jnull
    let context2 := if otruthy context1 = false then auth2 else context1.getD .jnull
    .ok { auth_token := auth2, context_token := context2, transaction_id := txn1 }

/-- Python `dict.update`: apply the extra entries over the base dict. -/
def headers_update (base extra : List (String × String)) : List (String × String) :=
  extra.foldl (fun acc kv => str_set acc kv.1 kv.2) base

/-- request.py `HaloRequest._build_headers`. The fresh `uuid.uuid4()`
value is a parameter. -/
def build_headers (cfg : HaloConfig) (uuid : String)
    (extra_headers : List (String × String)) (include_content_type : Bool) :
    List (String × String) :=
  let txn :=
    if truthy cfg.transaction_id then pyStr cfg.transaction_id ++ "-" ++ uuid
    else uuid
  let headers : List (String × String) := [
    ("Accept", "application/json"),
    ("transaction-id", txn),
    ("authorization", "Bearer " ++ pyStr cfg.auth_token),
    ("contexttoken", "Bearer " ++ pyStr cfg.context_token)]
  let headers2 :=
    if include_content_type then str_set headers "Content-Type" "application/json"
    else headers
  headers_update headers2 extra_headers

/-- Characters before the first dot (helper for `file_type`, applied to
the reversed name: Python `rsplit(".", 1)[-1]`). -/
def take_until_dot : List Char → List Char
  | [] => []
  | c :: rest => if c = Char.ofNat 46 then [] else c :: take_until_dot rest

/-- submission.py `_file_type`: extension after the last dot, lower-cased,
`"bin"` when there is no dot. -/
def file_type (filename : String) : String :=
  if strContains filename "." then
    str_lower (String.mk (take_until_dot filename.data.reverse).reverse)
  else "bin"

/-- submission.py `_format_resources`: the list comprehension, written as
explicit recursion so the first failing subscript aborts, as in Python. -/
def format_resources : List JVal → Except Err (List JVal)
  | [] => .ok []
  | r :: rest =>
    match dict_index r "resource" with
    | .error e => .error e
    | .ok res =>
      match dict_index res "name" with
      | .error e => .error e
      | .ok name =>
        match dict_index res "id" with
        | .error e => .error e
        | .ok rid =>
          match format_resources rest with
          | .error e => .error e
          | .ok rest2 =>
            .ok (.jobj [
              ("fileName", name),
              ("resourceId", rid),
              ("uploadDate", (py_get r "uploadDate").getD .jnull)] :: rest2)

/-- submission.py `upload_assignment_file_flow`. Inputs: the four string
arguments; the local file (`none` = not a file, otherwise name and
bytes, modelling `_read_file`); the MIME-inference table of
`_content_type` (stdlib `mimetypes`) as a function; and the four remote
responses, in call order. Output: result (or error) and the trace. -/
def upload_assignment_file_flow
    (class_id slug assessment_id file_path : String)
    (localFile : Option (String × List Nat))
    (contentTypeOf : String → String)
    (presignedResp : Except Nat JVal)
    (s3Resp : Except Nat Unit)
    (bulkResp : Except Nat JObj)
    (statusResp : Except Nat JVal) :
    Except Err JVal × List Effect :=
  match localFile with
  | none => (.error (.valueError ("File not found: " ++ file_path)), [])
  | some (file_name, file_bytes) =>
    let presignBody : JVal := .jarr [.jobj [
      ("type", .jstr "assignment_submission"),
      ("kind", .jstr "FILE"),
      ("description", .jstr ""),
      ("fileName", .jstr file_name),
      ("fileSize", .jnum file_bytes.length),
      ("fileType", .jstr (file_type file_name)),
      ("storageProviderEnum", .jarr [.jstr "S3"]),
      ("resourceSignature", .jobj [
        ("courseClassId", .jstr class_id),
        ("courseClassAssessmentId", .jstr assessment_id),
        ("courseClassAssessmentGroupId", .jnull)])]]
    match execute_rest_post "generate-presigned-urls"
        "/api/v1/orchestrate/generate-presigned-urls" presignBody presignedResp with
    | (.error e, t1) => (.error e, t1)
    | (.ok presigned, t1) =>
      match list_index presigned 0 with
      | .error e => (.error e, t1)
      | .ok firstTicket =>
        match dict_index firstTicket "resourceId" with
        | .error e => (.error e, t1)
        | .ok resource_id =>
          match dict_index firstTicket "s3UploadUrl" with
          | .error e => (.error e, t1)
          | .ok s3_url =>
            match upload_to_s3 (pyStr s3_url) file_bytes (contentTypeOf file_name) s3Resp with
            | (.error e, t2) => (.error e, t1 ++ t2)
            | (.ok _, t2) =>
              match gql_execute "BulkAssignmentResource"
                  [("courseClassAssessmentId", .jstr assessment_id),
                   ("resourceIds", .jarr [resource_id])] bulkResp with
              | (.error e, t3) => (.error e, t1 ++ t2 ++ t3)
              | (.ok bulkBody, t3) =>
                match dict_index (.jobj bulkBody) "data" with
                | .error e => (.error e, t1 ++ t2 ++ t3)
                | .ok dataPart =>
                  match dict_index dataPart "bulkAddAssignmentSubmissionResource" with
                  | .error e => (.error e, t1 ++ t2 ++ t3)
                  | .ok submission =>
                    let confirmBody : JVal := .jarr [.jobj [
                      ("resourceId", resource_id),
                      ("status", .jstr "COMPLETED"),
                      ("storageProviderEnum", .jarr [.jstr "S3"])]]
                    match execute_rest_post "fileUploadStatus"
                        "/api/v1/orchestrate/fileUploadStatus" confirmBody statusResp with
                    | (.error e, t4) => (.error e, t1 ++ t2 ++ t3 ++ t4)
                    | (.ok _, t4) =>
                      match dict_index submission "id" with
                      | .error e => (.error e, t1 ++ t2 ++ t3 ++ t4)
                      | .ok submission_id =>
                        match dict_index submission "resources" with
                        | .error e => (.error e, t1 ++ t2 ++ t3 ++ t4)
                        | .ok resourcesVal =>
                          match resourcesVal with
                          | .jarr resources =>
                            match format_resources resources with
                            | .error e => (.error e, t1 ++ t2 ++ t3 ++ t4)
                            | .ok attached =>
                              (.ok (.jobj [
                                ("uploadedFile", .jstr file_name),
                                ("submissionId", submission_id),
                                ("totalAttachedFiles", .jnum resources.length),
                                ("attachedFiles", .jarr attached)]),
                               t1 ++ t2 ++ t3 ++ t4)
                          | _ => (.error .typeError, t1 ++ t2 ++ t3 ++ t4)

/-- The error message of submission.py `submit_assignment_flow` when the
server reports no attached resources. -/
def noFilesAttachedMsg : String :=
  "No files attached to this assignment. Use upload_assignment_file first."

/-- submission.py `submit_assignment_flow`, `resource_info` comprehension,
written as explicit recursion. -/
def build_resource_info : List JVal → Except Err (List JVal)
  | [] => .ok []
  | r :: rest =>
    match dict_index r "id" with
    | .error e => .error e
    | .ok srid =>
      match dict_index r "resource" with
      | .error e => .error e
      | .ok res =>
        match dict_index res "id" with
        | .error e => .error e
        | .ok rid =>
          match dict_index res "name" with
          | .error e => .error e
          | .ok name =>
            match build_resource_info rest with
            | .error e => .error e
            | .ok rest2 =>
              .ok (.jobj [
                ("assignmentSubmissionResourceId", srid),
                ("resourceId", rid),
                ("fileName", name),
                ("similarityReportStatus",
                  (py_get r "similarityReportStatusEnum").getD (.jstr "NOT_SUBMITTED"))] :: rest2)

/-- submission.py `submit_assignment_flow`, `filesSubmitted` comprehension
over the built `resource_info` list. -/
def files_submitted : List JVal → Except Err (List JVal)
  | [] => .ok []
  | r :: rest =>
    match dict_index r "fileName" with
    | .error e => .error e
    | .ok n =>
      match files_submitted rest with
      | .error e => .error e
      | .ok ns => .ok (n :: ns)

/-- submission.py `submit_assignment_flow`. Inputs: the four string
arguments and the three remote responses, in call order. Output: result
(or error) and the trace. -/
def submit_assignment_flow
    (class_id class_name slug assessment_id : String)
    (assessmentResp : Except Nat JObj)
    (submissionResp : Except Nat JObj)
    (submitResp : Except Nat JVal) :
    Except Err JVal × List Effect :=
  match gql_execute "CourseClassAssessment"
      [("assessmentId", .jstr assessment_id)] assessmentResp with
  | (.error e, t1) => (.error e, t1)
  | (.ok assessmentBody, t1) =>
    match dict_index (.jobj assessmentBody) "data" with
    | .error e => (.error e, t1)
    | .ok d1 =>
      match dict_index d1 "assessment" with
      | .error e => (.error e, t1)
      | .ok assessment =>
        match gql_execute "AssignmentSubmission"
            [("courseClassAssessmentId", .jstr assessment_id)] submissionResp with
        | (.error e, t2) => (.error e, t1 ++ t2)
        | (.ok submissionBody, t2) =>
          match dict_index (.jobj submissionBody) "data" with
          | .error e => (.error e, t1 ++ t2)
          | .ok d2 =>
            match dict_index d2 "assignmentSubmission" with
            | .error e => (.error e, t1 ++ t2)
            | .ok submission =>
              match dict_index submission "id" with
              | .error e => (.error e, t1 ++ t2)
              | .ok submission_id =>
                match dict_index submission "resources" with
                | .error e => (.error e, t1 ++ t2)
                | .ok resourcesVal =>
                  if truthy resourcesVal = false then
                    (.error (.valueError noFilesAttachedMsg), t1 ++ t2)
                  else
                    match resourcesVal with
                    | .jarr resources =>
                      match build_resource_info resources with
                      | .error e => (.error e, t1 ++ t2)
                      | .ok resource_info =>
                        match dict_index assessment "title" with
                        | .error e => (.error e, t1 ++ t2)
                        | .ok title =>
                          let submitBody : JVal := .jobj [
                            ("classId", .jstr class_id),
                            ("className", .jstr class_name),
                            ("assessmentId", .jstr assessment_id),
                            ("assessmentTitle", title),
                            ("requiresLopeswrite",
                              (py_get assessment "requiresLopesWrite").getD (.jbool false)),
                            ("resourceInfo", .jarr resource_info)]
                          match execute_rest_post "submit"
                              ("/api/v1/orchestrate/resource/assignment_resource/"
                                ++ pyStr submission_id ++ "/submit")
                              submitBody submitResp with
                          | (.error e, t3) => (.error e, t1 ++ t2 ++ t3)
                          | (.ok submitted, t3) =>
                            match dict_index assessment "title" with
                            | .error e => (.error e, t1 ++ t2 ++ t3)
                            | .ok title2 =>
                              match files_submitted resource_info with
                              | .error e => (.error e, t1 ++ t2 ++ t3)
                              | .ok names =>
                                (.ok (.jobj [
                                  ("status", (py_get submitted "status").getD (.jstr "Unknown")),
                                  ("submissionId", submission_id),
                                  ("assessmentTitle", title2),
                                  ("filesSubmitted", .jarr names)]),
                                 t1 ++ t2 ++ t3)
                    | _ => (.error .typeError, t1 ++ t2)

/-! Concrete response fixtures, used to exercise the flows on the
end-to-end attach scenario (file "essay.docx", resource "R1",
submission "S1"). -/

/-- One server-returned submission resource entry. -/
def exResource : JVal :=
  .jobj [("id", .jstr "r1"), ("uploadDate", .jstr "2025-01-01"),
         ("resource", .jobj [("id", .jstr "R1"), ("name", .jstr "essay.docx")])]

/-- The upload-ticket entry for that file. -/
def exTicket : JVal :=
  .jobj [("resourceId", .jstr "R1"), ("s3UploadUrl", .jstr "https://s3/x")]

/-- The submission record holding `exResource`. -/
def exSubmission : JVal :=
  .jobj [("id", .jstr "S1"), ("resources", .jarr [exResource])]

/-- The `data` part of the link-mutation response. -/
def exDataPart : JVal :=
  .jobj [("bulkAddAssignmentSubmissionResource", exSubmission)]

/-- The full link-mutation response body. -/
def exBulkBody : JObj := [("data", exDataPart)]

/-- The formatted summary of `exResource`. -/
def exFormatted : JVal :=
  .jobj [("fileName", .jstr "essay.docx"), ("resourceId", .jstr "R1"),
         ("uploadDate", .jstr "2025-01-01")]

/-! Basic lemmas about the object store. -/

theorem jget_jset_self (data : JObj) (key : String) (v : JVal) :
    jget (jset data key v) key = some v := by
  induction data with
  | nil => simp [jset, jget]
  | cons kv rest ih =>
    obtain ⟨k, w⟩ := kv
    by_cases hk : k = key
    · subst hk; simp [jset, jget]
    · simp [jset, jget, hk, ih]

theorem jget_jset_other (data : JObj) (key key2 : String) (v : JVal)
    (h : key2 ≠ key) :
    jget (jset data key v) key2 = jget data key2 := by
  induction data with
  | nil => simp [jset, jget, Ne.symm h]
  | cons kv rest ih =>
    obtain ⟨k, w⟩ := kv
    by_cases hk : k = key
    · subst hk
      simp [jset, jget, Ne.symm h]
    · by_cases hk2 : k = key2
      · subst hk2; simp [jset, jget, hk]
      · simp [jset, jget, hk, hk2, ih]

/-- C3: `refresh_tokens` with no session cookie set in durable storage
(config.json absent, or its `sessionCookies` entry absent) fails with the
no-session `RuntimeError`, whose message carries the guidance to run the
initial setup (session establishment) first, and the network trace is
empty: no call is attempted, and the store is unchanged. -/
theorem refresh_tokens_no_session (cfgFile : Option JObj)
    (sessionResp : Except Nat JObj)
    (h : cfgFile = none ∨ ∃ data, cfgFile = some data ∧ jget data "sessionCookies" = none) :
    refresh_tokens cfgFile sessionResp =
      (.error (.runtimeError noSessionMsg), [], cfgFile) ∧
    strContains noSessionMsg "Run initial setup first" = true := by
  refine ⟨?_, by decide⟩
  have hcs : get_session_cookies_from_config cfgFile = none := by
    rcases h with h | ⟨data, hd, hk⟩
    · simp [h, get_session_cookies_from_config]
    · simp [hd, get_session_cookies_from_config, hk]
  simp [refresh_tokens, hcs]

theorem refresh_tokens_no_session_witness :
    refresh_tokens none (.ok [("userId", .jstr "u1")]) =
      (.error (.runtimeError noSessionMsg), [], none) ∧
    strContains noSessionMsg "Run initial setup first" = true :=
  refresh_tokens_no_session none (.ok [("userId", .jstr "u1")]) (Or.inl rfl)

/-- C10: when the stored `sessionCookies` entry exists but is an empty
mapping or not a mapping at all, `refresh_tokens` behaves exactly as if
no session were stored: same no-session `RuntimeError`, empty network
trace (no cookie header is ever sent), store unchanged. -/
theorem refresh_tokens_degenerate_cookies (data : JObj) (v : JVal)
    (sessionResp : Except Nat JObj)
    (hk : jget data "sessionCookies" = some v)
    (hv : v = .jobj [] ∨ ∀ fields, v ≠ .jobj fields) :
    refresh_tokens (some data) sessionResp =
      (.error (.runtimeError noSessionMsg), [], some data) := by
  have hcs : get_session_cookies_from_config (some data) = none := by
    rcases hv with rfl | hnv
    · simp [get_session_cookies_from_config, hk, truthy]
    · cases v with
      | jobj fields => exact absurd rfl (hnv fields)
      | jnull => simp [get_session_cookies_from_config, hk, truthy]
      | jbool b => cases b <;> simp [get_session_cookies_from_config, hk, truthy]
      | jnum n =>
        by_cases hn : n = 0 <;> simp [get_session_cookies_from_config, hk, truthy, hn]
      | jstr s =>
        by_cases hs : s = "" <;> simp [get_session_cookies_from_config, hk, truthy, hs]
      | jarr elems => cases elems <;> simp [get_session_cookies_from_config, hk, truthy]
  simp [refresh_tokens, hcs]

theorem refresh_tokens_degenerate_cookies_witness :
    refresh_tokens (some [("sessionCookies", .jobj []), ("authToken", .jstr "A")])
        (.ok [("userId", .jstr "u1")]) =
      (.error (.runtimeError noSessionMsg), [],
       some [("sessionCookies", .jobj []), ("authToken", .jstr "A")]) :=
  refresh_tokens_degenerate_cookies
    [("sessionCookies", .jobj []), ("authToken", .jstr "A")] (.jobj [])
    (.ok [("userId", .jstr "u1")]) rfl (Or.inl rfl)

/-- C5: every successful `refresh_tokens` run persists exactly the freshly
returned token pair into the configuration store (overwriting the prior
`authToken` / `contextToken`), while the stored `sessionCookies` entry and
every other persisted field are left unchanged. -/
theorem refresh_tokens_persists_tokens (data : JObj) (session : JObj)
    (res : JVal) (trace : List Effect) (fileAfter : Option JObj)
    (fresh_auth fresh_ctx : JVal)
    (h : refresh_tokens (some data) (.ok session) = (.ok res, trace, fileAfter))
    (hja : jget session "authToken" = some fresh_auth)
    (hjc : jget session "contextToken" = some fresh_ctx) :
    fileAfter = some (save_tokens (some data) fresh_auth fresh_ctx) ∧
    jget (save_tokens (some data) fresh_auth fresh_ctx) "authToken" = some fresh_auth ∧
    jget (save_tokens (some data) fresh_auth fresh_ctx) "contextToken" = some fresh_ctx ∧
    jget (save_tokens (some data) fresh_auth fresh_ctx) "sessionCookies" =
      jget data "sessionCookies" ∧
    ∀ k, k ≠ "authToken" → k ≠ "contextToken" →
      jget (save_tokens (some data) fresh_auth fresh_ctx) k = jget data k := by
  have hsave : save_tokens (some data) fresh_auth fresh_ctx =
      jset (jset data "authToken" fresh_auth) "contextToken" fresh_ctx := rfl
  have hfile : fileAfter = some (save_tokens (some data) fresh_auth fresh_ctx) := by
    cases hcs : get_session_cookies_from_config (some data) with
    | none => simp [refresh_tokens, hcs] at h
    | some cs =>
      simp only [refresh_tokens, hcs] at h
      split at h
      · simp at h
      · split at h
        · simp at h
        · rw [hja, hjc] at h
          simp only [Option.getD_some, Prod.mk.injEq] at h
          exact h.2.2.symm
  refine ⟨hfile, ?_, ?_, ?_, ?_⟩
  · rw [hsave, jget_jset_other _ _ _ _ (by decide : ("authToken" : String) ≠ "contextToken"),
        jget_jset_self]
  · rw [hsave, jget_jset_self]
  · rw [hsave,
        jget_jset_other _ _ _ _ (by decide : ("sessionCookies" : String) ≠ "contextToken"),
        jget_jset_other _ _ _ _ (by decide : ("sessionCookies" : String) ≠ "authToken")]
  · intro k hk1 hk2
    rw [hsave, jget_jset_other _ _ _ _ hk2, jget_jset_other _ _ _ _ hk1]

theorem refresh_tokens_persists_tokens_witness :
    jget (save_tokens (some [("sessionCookies", JVal.jobj [("sc", JVal.jstr "v")]),
            ("extra", JVal.jstr "e")]) (.jstr "A2") (.jstr "C2")) "authToken" =
      some (.jstr "A2") ∧
    jget (save_tokens (some [("sessionCookies", JVal.jobj [("sc", JVal.jstr "v")]),
            ("extra", JVal.jstr "e")]) (.jstr "A2") (.jstr "C2")) "sessionCookies" =
      jget [("sessionCookies", JVal.jobj [("sc", JVal.jstr "v")]),
            ("extra", JVal.jstr "e")] "sessionCookies" ∧
    jget (save_tokens (some [("sessionCookies", JVal.jobj [("sc", JVal.jstr "v")]),
            ("extra", JVal.jstr "e")]) (.jstr "A2") (.jstr "C2")) "extra" =
      jget [("sessionCookies", JVal.jobj [("sc", JVal.jstr "v")]),
            ("extra", JVal.jstr "e")] "extra" := by
  have h := refresh_tokens_persists_tokens
    [("sessionCookies", JVal.jobj [("sc", JVal.jstr "v")]), ("extra", JVal.jstr "e")]
    [("userId", JVal.jstr "u"), ("authToken", JVal.jstr "A2"),
     ("contextToken", JVal.jstr "C2")]
    (.jobj [("status", .jstr "refreshed"), ("expires", .jnull),
            ("authToken", .jstr "A2"), ("contextToken", .jstr "C2"),
            ("username", .jnull)])
    [Effect.httpGet "https://halo.gcu.edu/api/auth/session" [("Cookie", "sc=v")]]
    (some [("sessionCookies", JVal.jobj [("sc", JVal.jstr "v")]),
           ("extra", JVal.jstr "e"), ("authToken", JVal.jstr "A2"),
           ("contextToken", JVal.jstr "C2")])
    (.jstr "A2") (.jstr "C2") rfl rfl rfl
  exact ⟨h.2.1, h.2.2.2.1, h.2.2.2.2 "extra" (by decide) (by decide)⟩

/-- C9: when the config file holds an auth token but no context token is
configured anywhere (no `contextToken` entry, no `HALO_AUTH_TOKEN` /
`HALO_CONTEXT_TOKEN` environment overrides), loading the configuration
succeeds with the context token set equal to the auth token, and every
request built from that configuration sends the auth token as both the
`authorization` and `contexttoken` Bearer credentials. -/
theorem get_config_context_token_defaults (data : JObj)
    (env : List (String × String)) (a : JVal) (cfg : HaloConfig)
    (hfa : jget data "authToken" = some a)
    (hfc : jget data "contextToken" = none)
    (hea : env_get env "HALO_AUTH_TOKEN" = none)
    (hec : env_get env "HALO_CONTEXT_TOKEN" = none)
    (hok : get_config (some data) env = .ok cfg) :
    cfg.auth_token = a ∧ cfg.context_token = cfg.auth_token ∧
    ∀ uuid : String, ∀ ict : Bool,
      lookup_str (build_headers cfg uuid [] ict) "authorization" =
        some ("Bearer " ++ pyStr a) ∧
      lookup_str (build_headers cfg uuid [] ict) "contexttoken" =
        some ("Bearer " ++ pyStr a) := by
  simp only [get_config, hfa, hfc, hea, hec] at hok
  split at hok
  · simp at hok
  · simp only [Except.ok.injEq] at hok
    subst hok
    simp only [otruthy]
    refine ⟨rfl, rfl, ?_⟩
    intro uuid ict
    cases ict <;>
      simp [build_headers, headers_update, str_set, lookup_str]

theorem get_config_context_token_defaults_witness :
    (HaloConfig.mk (JVal.jstr "A") (JVal.jstr "A") (JVal.jstr "")).auth_token =
      JVal.jstr "A" ∧
    (HaloConfig.mk (JVal.jstr "A") (JVal.jstr "A") (JVal.jstr "")).context_token =
      (HaloConfig.mk (JVal.jstr "A") (JVal.jstr "A") (JVal.jstr "")).auth_token ∧
    lookup_str (build_headers
        (HaloConfig.mk (JVal.jstr "A") (JVal.jstr "A") (JVal.jstr "")) "u" [] true)
        "authorization" = some ("Bearer " ++ pyStr (.jstr "A")) ∧
    lookup_str (build_headers
        (HaloConfig.mk (JVal.jstr "A") (JVal.jstr "A") (JVal.jstr "")) "u" [] true)
        "contexttoken" = some ("Bearer " ++ pyStr (.jstr "A")) := by
  have h := get_config_context_token_defaults [("authToken", JVal.jstr "A")] []
    (JVal.jstr "A") (HaloConfig.mk (JVal.jstr "A") (JVal.jstr "A") (JVal.jstr ""))
    rfl rfl rfl rfl rfl
  exact ⟨h.1, h.2.1, (h.2.2 "u" true).1, (h.2.2 "u" true).2⟩

/-- C4: in `create_session`, once the CSRF and callback exchanges have
succeeded, (1) absence of the long-lived `__Secure-next-auth.session-token`
cookie among the cookies kept from the callback exchange fails with the
tokens-invalid `RuntimeError`; (2) otherwise, a session-data response with
no (truthy) user identity fails with the no-user-data `RuntimeError`;
(3) only when both checks pass does the operation return a result. -/
theorem create_session_check_order (a c : String) (csrfBody : JObj)
    (csrf_token : JVal) (cb : JVal) (jar : List (String × String))
    (sessionResp : Except Nat JObj)
    (hcsrf : jget csrfBody "csrfToken" = some csrf_token) :
    (lookup_str (collect_session_cookies jar) "__Secure-next-auth.session-token" = none →
      (create_session a c (.ok csrfBody) (.ok cb) jar sessionResp).1 =
        .error (.runtimeError tokensInvalidMsg)) ∧
    (∀ sc session,
      lookup_str (collect_session_cookies jar) "__Secure-next-auth.session-token" = some sc →
      sessionResp = .ok session → otruthy (jget session "userId") = false →
      (create_session a c (.ok csrfBody) (.ok cb) jar sessionResp).1 =
        .error (.runtimeError noUserDataMsg)) ∧
    (∀ sc session,
      lookup_str (collect_session_cookies jar) "__Secure-next-auth.session-token" = some sc →
      sessionResp = .ok session → otruthy (jget session "userId") = true →
      ∃ res, (create_session a c (.ok csrfBody) (.ok cb) jar sessionResp).1 = .ok res) := by
  refine ⟨?_, ?_, ?_⟩
  · intro h1
    simp [create_session, hcsrf, h1]
  · intro sc session hsc hresp huser
    subst hresp
    simp [create_session, hcsrf, hsc, huser]
  · intro sc session hsc hresp huser
    subst hresp
    simp [create_session, hcsrf, hsc, huser]

theorem create_session_check_order_witness :
    (create_session "A1" "C1" (.ok [("csrfToken", JVal.jstr "t")]) (.ok .jnull) []
        (.ok [("userId", JVal.jstr "u1")])).1 =
      .error (.runtimeError tokensInvalidMsg) :=
  (create_session_check_order "A1" "C1" [("csrfToken", JVal.jstr "t")]
    (JVal.jstr "t") .jnull [] (.ok [("userId", JVal.jstr "u1")]) rfl).1 rfl

/-- C8: on the success path of `create_session`, the returned record field
`authToken` (resp. `contextToken`) is the server-supplied value
whenever the session-data response contains that field, and falls back to
the caller-supplied token when the response omits it. -/
theorem create_session_token_fallback (a c : String) (csrfBody : JObj)
    (csrf_token : JVal) (cb : JVal) (jar : List (String × String))
    (session : JObj) (sc : String) (fields : JObj)
    (hcsrf : jget csrfBody "csrfToken" = some csrf_token)
    (hsc : lookup_str (collect_session_cookies jar) "__Secure-next-auth.session-token" =
      some sc)
    (huser : otruthy (jget session "userId") = true)
    (hres : (create_session a c (.ok csrfBody) (.ok cb) jar (.ok session)).1 =
      .ok (.jobj fields)) :
    jget fields "authToken" = some ((jget session "authToken").getD (.jstr a)) ∧
    jget fields "contextToken" = some ((jget session "contextToken").getD (.jstr c)) ∧
    (jget session "authToken" = none → jget fields "authToken" = some (.jstr a)) ∧
    (∀ v, jget session "authToken" = some v → jget fields "authToken" = some v) ∧
    (jget session "contextToken" = none → jget fields "contextToken" = some (.jstr c)) ∧
    (∀ v, jget session "contextToken" = some v → jget fields "contextToken" = some v) := by
  have hflow : (create_session a c (.ok csrfBody) (.ok cb) jar (.ok session)).1 =
      .ok (.jobj [
        ("sessionCookies",
          .jobj ((collect_session_cookies jar).map (fun kv => (kv.1, JVal.jstr kv.2)))),
        ("expires", (jget session "expires").getD .jnull),
        ("authToken", (jget session "authToken").getD (.jstr a)),
        ("contextToken", (jget session "contextToken").getD (.jstr c)),
        ("userId", (jget session "userId").getD .jnull),
        ("username", (jget session "username").getD .jnull)]) := by
    simp [create_session, hcsrf, hsc, huser]
  rw [hflow] at hres
  injection hres with hres
  injection hres with hres
  have hA : jget fields "authToken" = some ((jget session "authToken").getD (.jstr a)) := by
    rw [← hres]; simp [jget]
  have hC : jget fields "contextToken" =
      some ((jget session "contextToken").getD (.jstr c)) := by
    rw [← hres]; simp [jget]
  refine ⟨hA, hC, ?_, ?_, ?_, ?_⟩
  · intro h0; rw [hA, h0]; rfl
  · intro v h0; rw [hA, h0]; rfl
  · intro h0; rw [hC, h0]; rfl
  · intro v h0; rw [hC, h0]; rfl

theorem create_session_token_fallback_witness :
    jget [
        ("sessionCookies", JVal.jobj [("__Secure-next-auth.session-token", JVal.jstr "tok")]),
        ("expires", JVal.jnull),
        ("authToken", JVal.jstr "A1"),
        ("contextToken", JVal.jstr "C2"),
        ("userId", JVal.jstr "u1"),
        ("username", JVal.jnull)] "authToken" = some (JVal.jstr "A1") ∧
    jget [
        ("sessionCookies", JVal.jobj [("__Secure-next-auth.session-token", JVal.jstr "tok")]),
        ("expires", JVal.jnull),
        ("authToken", JVal.jstr "A1"),
        ("contextToken", JVal.jstr "C2"),
        ("userId", JVal.jstr "u1"),
        ("username", JVal.jnull)] "contextToken" = some (JVal.jstr "C2") := by
  have h := create_session_token_fallback "A1" "C1" [("csrfToken", JVal.jstr "t")]
    (JVal.jstr "t") .jnull [("__Secure-next-auth.session-token", "tok")]
    [("userId", JVal.jstr "u1"), ("contextToken", JVal.jstr "C2")] "tok"
    [("sessionCookies", JVal.jobj [("__Secure-next-auth.session-token", JVal.jstr "tok")]),
     ("expires", JVal.jnull),
     ("authToken", JVal.jstr "A1"),
     ("contextToken", JVal.jstr "C2"),
     ("userId", JVal.jstr "u1"),
     ("username", JVal.jnull)]
    rfl rfl rfl rfl
  exact ⟨h.2.2.1 rfl, h.2.2.2.2.2 (JVal.jstr "C2") rfl⟩

/-- Elementwise characterization of `_format_resources`: when it succeeds,
the output has one entry per input resource, and the `i`-th entry is
exactly the (fileName, resourceId, uploadDate) summary of the `i`-th
server resource. -/
theorem format_resources_spec (rs fs : List JVal)
    (h : format_resources rs = .ok fs) :
    fs.length = rs.length ∧
    ∀ i (hi : i < rs.length) (hi2 : i < fs.length),
      ∃ res nm rid,
        dict_index (rs.get ⟨i, hi⟩) "resource" = .ok res ∧
        dict_index res "name" = .ok nm ∧
        dict_index res "id" = .ok rid ∧
        fs.get ⟨i, hi2⟩ = .jobj [("fileName", nm), ("resourceId", rid),
          ("uploadDate", (py_get (rs.get ⟨i, hi⟩) "uploadDate").getD .jnull)] := by
  induction rs generalizing fs with
  | nil =>
    simp only [format_resources, Except.ok.injEq] at h
    subst h
    exact ⟨rfl, fun i hi => absurd hi (Nat.not_lt_zero i)⟩
  | cons r rest ih =>
    simp only [format_resources] at h
    cases h1 : dict_index r "resource" with
    | error e => simp only [h1] at h; simp at h
    | ok res =>
      simp only [h1] at h
      cases h2 : dict_index res "name" with
      | error e => simp only [h2] at h; simp at h
      | ok nm =>
        simp only [h2] at h
        cases h3 : dict_index res "id" with
        | error e => simp only [h3] at h; simp at h
        | ok rid =>
          simp only [h3] at h
          cases h4 : format_resources rest with
          | error e => simp only [h4] at h; simp at h
          | ok fs2 =>
            simp only [h4] at h
            simp only [Except.ok.injEq] at h
            subst h
            obtain ⟨ihlen, ihel⟩ := ih fs2 h4
            refine ⟨by simp [ihlen], ?_⟩
            intro i hi hi2
            cases i with
            | zero => exact ⟨res, nm, rid, h1, h2, h3, rfl⟩
            | succ n =>
              have hn : n < rest.length := Nat.lt_of_succ_lt_succ hi
              have hn2 : n < fs2.length := Nat.lt_of_succ_lt_succ hi2
              exact ihel n hn hn2

/-- Elementwise characterization of the `resource_info` comprehension of
`submit_assignment_flow`: when it succeeds, the `i`-th descriptor carries
the subscripted fields of the `i`-th server resource, and its
`similarityReportStatus` is the server value when present and
`"NOT_SUBMITTED"` when the server omits the field. -/
theorem build_resource_info_spec (rs ri : List JVal)
    (h : build_resource_info rs = .ok ri) :
    ri.length = rs.length ∧
    ∀ i (hi : i < rs.length) (hi2 : i < ri.length),
      ∃ srid res rid nm,
        dict_index (rs.get ⟨i, hi⟩) "id" = .ok srid ∧
        dict_index (rs.get ⟨i, hi⟩) "resource" = .ok res ∧
        dict_index res "id" = .ok rid ∧
        dict_index res "name" = .ok nm ∧
        ri.get ⟨i, hi2⟩ = .jobj [
          ("assignmentSubmissionResourceId", srid),
          ("resourceId", rid),
          ("fileName", nm),
          ("similarityReportStatus",
            (py_get (rs.get ⟨i, hi⟩) "similarityReportStatusEnum").getD
              (.jstr "NOT_SUBMITTED"))] := by
  induction rs generalizing ri with
  | nil =>
    simp only [build_resource_info, Except.ok.injEq] at h
    subst h
    exact ⟨rfl, fun i hi => absurd hi (Nat.not_lt_zero i)⟩
  | cons r rest ih =>
    simp only [build_resource_info] at h
    cases h1 : dict_index r "id" with
    | error e => simp only [h1] at h; simp at h
    | ok srid =>
      simp only [h1] at h
      cases h2 : dict_index r "resource" with
      | error e => simp only [h2] at h; simp at h
      | ok res =>
        simp only [h2] at h
        cases h3 : dict_index res "id" with
        | error e => simp only [h3] at h; simp at h
        | ok rid =>
          simp only [h3] at h
          cases h4 : dict_index res "name" with
          | error e => simp only [h4] at h; simp at h
          | ok nm =>
            simp only [h4] at h
            cases h5 : build_resource_info rest with
            | error e => simp only [h5] at h; simp at h
            | ok ri2 =>
              simp only [h5] at h
              simp only [Except.ok.injEq] at h
              subst h
              obtain ⟨ihlen, ihel⟩ := ih ri2 h5
              refine ⟨by simp [ihlen], ?_⟩
              intro i hi hi2
              cases i with
              | zero => exact ⟨srid, res, rid, nm, h1, h2, h3, h4, rfl⟩
              | succ n =>
                have hn : n < rest.length := Nat.lt_of_succ_lt_succ hi
                have hn2 : n < ri2.length := Nat.lt_of_succ_lt_succ hi2
                exact ihel n hn hn2

/-- C1: when the server-fetched submission record reports an empty
resource list, `submit_assignment_flow` fails with the nothing-attached
`ValueError` and its trace consists of exactly the two read-only GraphQL
queries that preceded the check: no orchestration POST — in particular
the terminal submit request — is ever issued. -/
theorem submit_flow_nothing_attached
    (class_id class_name slug assessment_id : String)
    (aBody : JObj) (d1 assessment : JVal) (sBody : JObj) (d2 submission sid : JVal)
    (submitResp : Except Nat JVal)
    (ha0 : jget aBody "errors" = none)
    (ha1 : jget aBody "data" = some d1)
    (ha2 : dict_index d1 "assessment" = .ok assessment)
    (hs0 : jget sBody "errors" = none)
    (hs1 : jget sBody "data" = some d2)
    (hs2 : dict_index d2 "assignmentSubmission" = .ok submission)
    (hs3 : dict_index submission "id" = .ok sid)
    (hs4 : dict_index submission "resources" = .ok (.jarr [])) :
    submit_assignment_flow class_id class_name slug assessment_id
        (.ok aBody) (.ok sBody) submitResp =
      (.error (.valueError noFilesAttachedMsg),
       [Effect.gqlPost "CourseClassAssessment" [("assessmentId", .jstr assessment_id)],
        Effect.gqlPost "AssignmentSubmission"
          [("courseClassAssessmentId", .jstr assessment_id)]]) ∧
    ∀ op p b, Effect.restPost op p b ∉
      (submit_assignment_flow class_id class_name slug assessment_id
        (.ok aBody) (.ok sBody) submitResp).2 := by
  have hmain : submit_assignment_flow class_id class_name slug assessment_id
      (.ok aBody) (.ok sBody) submitResp =
      (.error (.valueError noFilesAttachedMsg),
       [Effect.gqlPost "CourseClassAssessment" [("assessmentId", .jstr assessment_id)],
        Effect.gqlPost "AssignmentSubmission"
          [("courseClassAssessmentId", .jstr assessment_id)]]) := by
    have ha1d : dict_index (.jobj aBody) "data" = .ok d1 := by simp [dict_index, ha1]
    have hs1d : dict_index (.jobj sBody) "data" = .ok d2 := by simp [dict_index, hs1]
    simp [submit_assignment_flow, gql_execute,
      ha0, ha1d, ha2, hs0, hs1d, hs2, hs3, hs4, truthy]
  refine ⟨hmain, ?_⟩
  intro op p b
  rw [hmain]
  simp

theorem submit_flow_nothing_attached_witness :
    submit_assignment_flow "cl1" "Class One" "slug1" "ax1"
        (.ok [("data", JVal.jobj [("assessment",
          JVal.jobj [("title", JVal.jstr "Essay")])])])
        (.ok [("data", JVal.jobj [("assignmentSubmission",
          JVal.jobj [("id", JVal.jstr "S1"), ("resources", JVal.jarr [])])])])
        (.ok .jnull) =
      (.error (.valueError noFilesAttachedMsg),
       [Effect.gqlPost "CourseClassAssessment" [("assessmentId", .jstr "ax1")],
        Effect.gqlPost "AssignmentSubmission"
          [("courseClassAssessmentId", .jstr "ax1")]]) ∧
    Effect.restPost "submit"
        "/api/v1/orchestrate/resource/assignment_resource/S1/submit" .jnull ∉
      (submit_assignment_flow "cl1" "Class One" "slug1" "ax1"
        (.ok [("data", JVal.jobj [("assessment",
          JVal.jobj [("title", JVal.jstr "Essay")])])])
        (.ok [("data", JVal.jobj [("assignmentSubmission",
          JVal.jobj [("id", JVal.jstr "S1"), ("resources", JVal.jarr [])])])])
        (.ok .jnull)).2 := by
  have h := submit_flow_nothing_attached "cl1" "Class One" "slug1" "ax1"
    [("data", JVal.jobj [("assessment", JVal.jobj [("title", JVal.jstr "Essay")])])]
    (JVal.jobj [("assessment", JVal.jobj [("title", JVal.jstr "Essay")])])
    (JVal.jobj [("title", JVal.jstr "Essay")])
    [("data", JVal.jobj [("assignmentSubmission",
      JVal.jobj [("id", JVal.jstr "S1"), ("resources", JVal.jarr [])])])]
    (JVal.jobj [("assignmentSubmission",
      JVal.jobj [("id", JVal.jstr "S1"), ("resources", JVal.jarr [])])])
    (JVal.jobj [("id", JVal.jstr "S1"), ("resources", JVal.jarr [])])
    (JVal.jstr "S1") (.ok .jnull)
    rfl rfl rfl rfl rfl rfl rfl rfl
  exact ⟨h.1, h.2 "submit"
    "/api/v1/orchestrate/resource/assignment_resource/S1/submit" .jnull⟩

/-- C2: when the upload-ticket response carries no usable
`resourceId` (subscripting `presigned_resp[0]["resourceId"]` fails:
empty list, non-object entry, or missing key), the attach flow fails with
exactly that subscript error, and no `s3Put` effect ever appears in the
trace: the ticket failure precedes and prevents the raw byte PUT. -/
theorem upload_flow_missing_resource_id
    (class_id slug assessment_id file_path file_name : String)
    (file_bytes : List Nat) (contentTypeOf : String → String)
    (pres : JVal) (err : Err)
    (s3Resp : Except Nat Unit) (bulkResp : Except Nat JObj)
    (statusResp : Except Nat JVal)
    (h : (list_index pres 0).bind (fun t => dict_index t "resourceId") = .error err) :
    (upload_assignment_file_flow class_id slug assessment_id file_path
        (some (file_name, file_bytes)) contentTypeOf (.ok pres) s3Resp bulkResp
        statusResp).1 = .error err ∧
    ∀ url fb ct, Effect.s3Put url fb ct ∉
      (upload_assignment_file_flow class_id slug assessment_id file_path
        (some (file_name, file_bytes)) contentTypeOf (.ok pres) s3Resp bulkResp
        statusResp).2 := by
  cases h0 : list_index pres 0 with
  | error e =>
    rw [h0] at h
    simp only [Except.bind] at h
    injection h with h
    subst h
    constructor
    · simp [upload_assignment_file_flow, execute_rest_post, h0]
    · intro url fb ct
      simp [upload_assignment_file_flow, execute_rest_post, h0]
  | ok t =>
    rw [h0] at h
    simp only [Except.bind] at h
    constructor
    · simp [upload_assignment_file_flow, execute_rest_post, h0, h]
    · intro url fb ct
      simp [upload_assignment_file_flow, execute_rest_post, h0, h]

theorem upload_flow_missing_resource_id_witness :
    (upload_assignment_file_flow "cl1" "slug1" "ax1" "/tmp/essay.docx"
        (some ("essay.docx", [104, 105])) (fun _ => "application/octet-stream")
        (.ok (.jarr [.jobj [("s3UploadUrl", .jstr "https://s3/x")]]))
        (.ok ()) (.ok []) (.ok .jnull)).1 =
      .error (.keyError "resourceId") ∧
    Effect.s3Put "https://s3/x" [104, 105] "application/octet-stream" ∉
      (upload_assignment_file_flow "cl1" "slug1" "ax1" "/tmp/essay.docx"
        (some ("essay.docx", [104, 105])) (fun _ => "application/octet-stream")
        (.ok (.jarr [.jobj [("s3UploadUrl", .jstr "https://s3/x")]]))
        (.ok ()) (.ok []) (.ok .jnull)).2 := by
  have h := upload_flow_missing_resource_id "cl1" "slug1" "ax1" "/tmp/essay.docx"
    "essay.docx" [104, 105] (fun _ => "application/octet-stream")
    (.jarr [.jobj [("s3UploadUrl", .jstr "https://s3/x")]])
    (.keyError "resourceId") (.ok ()) (.ok []) (.ok .jnull) rfl
  exact ⟨h.1, h.2 "https://s3/x" [104, 105] "application/octet-stream"⟩

/-- C6: on the success path of the attach flow, the returned record field
`totalAttachedFiles` is the length of the server-returned accumulated
resource list, `submissionId` is the server-returned submission id, and
`attachedFiles` is exactly the (fileName, resourceId, uploadDate) summary
of each server-returned resource, in order. -/
theorem upload_flow_result_fields
    (class_id slug assessment_id file_path file_name : String)
    (file_bytes : List Nat) (contentTypeOf : String → String)
    (pres firstTicket resource_id s3_url : JVal)
    (bulkBody : JObj) (dataPart submission sid : JVal)
    (rs fs : List JVal) (statusBody : JVal)
    (hp0 : list_index pres 0 = .ok firstTicket)
    (hp1 : dict_index firstTicket "resourceId" = .ok resource_id)
    (hp2 : dict_index firstTicket "s3UploadUrl" = .ok s3_url)
    (hb0 : jget bulkBody "errors" = none)
    (hb1 : jget bulkBody "data" = some dataPart)
    (hb2 : dict_index dataPart "bulkAddAssignmentSubmissionResource" = .ok submission)
    (hb3 : dict_index submission "id" = .ok sid)
    (hb4 : dict_index submission "resources" = .ok (.jarr rs))
    (hfmt : format_resources rs = .ok fs) :
    (upload_assignment_file_flow class_id slug assessment_id file_path
        (some (file_name, file_bytes)) contentTypeOf (.ok pres) (.ok ())
        (.ok bulkBody) (.ok statusBody)).1 =
      .ok (.jobj [
        ("uploadedFile", .jstr file_name),
        ("submissionId", sid),
        ("totalAttachedFiles", .jnum rs.length),
        ("attachedFiles", .jarr fs)]) ∧
    fs.length = rs.length ∧
    ∀ i (hi : i < rs.length) (hi2 : i < fs.length),
      ∃ res nm rid,
        dict_index (rs.get ⟨i, hi⟩) "resource" = .ok res ∧
        dict_index res "name" = .ok nm ∧
        dict_index res "id" = .ok rid ∧
        fs.get ⟨i, hi2⟩ = .jobj [("fileName", nm), ("resourceId", rid),
          ("uploadDate", (py_get (rs.get ⟨i, hi⟩) "uploadDate").getD .jnull)] := by
  have hb1d : dict_index (.jobj bulkBody) "data" = .ok dataPart := by
    simp [dict_index, hb1]
  refine ⟨?_, (format_resources_spec rs fs hfmt).1, (format_resources_spec rs fs hfmt).2⟩
  simp [upload_assignment_file_flow, execute_rest_post, upload_to_s3, gql_execute,
    hp0, hp1, hp2, hb0, hb1d, hb2, hb3, hb4, hfmt]

theorem upload_flow_result_fields_witness :
    (upload_assignment_file_flow "cl1" "slug1" "AX" "/tmp/essay.docx"
        (some ("essay.docx", [104, 105])) (fun _ => "application/octet-stream")
        (.ok (.jarr [exTicket])) (.ok ()) (.ok exBulkBody) (.ok .jnull)).1 =
      .ok (.jobj [
        ("uploadedFile", .jstr "essay.docx"),
        ("submissionId", .jstr "S1"),
        ("totalAttachedFiles", .jnum 1),
        ("attachedFiles", .jarr [exFormatted])]) :=
  (upload_flow_result_fields "cl1" "slug1" "AX" "/tmp/essay.docx" "essay.docx"
    [104, 105] (fun _ => "application/octet-stream")
    (.jarr [exTicket]) exTicket (.jstr "R1") (.jstr "https://s3/x")
    exBulkBody exDataPart exSubmission (.jstr "S1")
    [exResource] [exFormatted] .jnull
    rfl rfl rfl rfl rfl rfl rfl rfl rfl).1

/-- C7: on every finalize run that reaches the terminal submit call, the
trace entry of the call carries a per-resource descriptor list in which
the `similarityReportStatus` of each descriptor is the server-reported
`similarityReportStatusEnum` when that field is present, and
`"NOT_SUBMITTED"` whenever the server omits it — whatever the submit
response turns out to be. -/
theorem submit_flow_similarity_defaults
    (class_id class_name slug assessment_id : String)
    (aBody : JObj) (d1 assessment title : JVal) (sBody : JObj)
    (d2 submission sid : JVal) (rs ri : List JVal)
    (submitResp : Except Nat JVal)
    (ha0 : jget aBody "errors" = none)
    (ha1 : jget aBody "data" = some d1)
    (ha2 : dict_index d1 "assessment" = .ok assessment)
    (hs0 : jget sBody "errors" = none)
    (hs1 : jget sBody "data" = some d2)
    (hs2 : dict_index d2 "assignmentSubmission" = .ok submission)
    (hs3 : dict_index submission "id" = .ok sid)
    (hs4 : dict_index submission "resources" = .ok (.jarr rs))
    (hne : rs ≠ [])
    (hri : build_resource_info rs = .ok ri)
    (htitle : dict_index assessment "title" = .ok title) :
    Effect.restPost "submit"
        ("/api/v1/orchestrate/resource/assignment_resource/" ++ pyStr sid ++ "/submit")
        (.jobj [
          ("classId", .jstr class_id),
          ("className", .jstr class_name),
          ("assessmentId", .jstr assessment_id),
          ("assessmentTitle", title),
          ("requiresLopeswrite",
            (py_get assessment "requiresLopesWrite").getD (.jbool false)),
          ("resourceInfo", .jarr ri)]) ∈
      (submit_assignment_flow class_id class_name slug assessment_id
        (.ok aBody) (.ok sBody) submitResp).2 ∧
    ri.length = rs.length ∧
    ∀ i (hi : i < rs.length) (hi2 : i < ri.length),
      (∀ v, py_get (rs.get ⟨i, hi⟩) "similarityReportStatusEnum" = some v →
        dict_index (ri.get ⟨i, hi2⟩) "similarityReportStatus" = .ok v) ∧
      (py_get (rs.get ⟨i, hi⟩) "similarityReportStatusEnum" = none →
        dict_index (ri.get ⟨i, hi2⟩) "similarityReportStatus" =
          .ok (.jstr "NOT_SUBMITTED")) := by
  have ha1d : dict_index (.jobj aBody) "data" = .ok d1 := by simp [dict_index, ha1]
  have hs1d : dict_index (.jobj sBody) "data" = .ok d2 := by simp [dict_index, hs1]
  have htr : truthy (.jarr rs) = true := by
    cases rs with
    | nil => exact absurd rfl hne
    | cons r rest => simp [truthy]
  obtain ⟨hlen, hel⟩ := build_resource_info_spec rs ri hri
  have htrace : (submit_assignment_flow class_id class_name slug assessment_id
      (.ok aBody) (.ok sBody) submitResp).2 =
      [Effect.gqlPost "CourseClassAssessment" [("assessmentId", .jstr assessment_id)],
       Effect.gqlPost "AssignmentSubmission"
         [("courseClassAssessmentId", .jstr assessment_id)],
       Effect.restPost "submit"
         ("/api/v1/orchestrate/resource/assignment_resource/"
           ++ pyStr sid ++ "/submit")
         (.jobj [
           ("classId", .jstr class_id),
           ("className", .jstr class_name),
           ("assessmentId", .jstr assessment_id),
           ("assessmentTitle", title),
           ("requiresLopeswrite",
             (py_get assessment "requiresLopesWrite").getD (.jbool false)),
           ("resourceInfo", .jarr ri)])] := by
    cases submitResp with
    | error code =>
      by_cases hc : code = 401
      · subst hc
        simp [submit_assignment_flow, gql_execute, execute_rest_post,
          ha0, ha1d, ha2, hs0, hs1d, hs2, hs3, hs4, htr, hri, htitle]
      · simp [submit_assignment_flow, gql_execute, execute_rest_post, hc,
          ha0, ha1d, ha2, hs0, hs1d, hs2, hs3, hs4, htr, hri, htitle]
    | ok sv =>
      cases hfs : files_submitted ri with
      | error e =>
        simp [submit_assignment_flow, gql_execute, execute_rest_post, hfs,
          ha0, ha1d, ha2, hs0, hs1d, hs2, hs3, hs4, htr, hri, htitle]
      | ok names =>
        simp [submit_assignment_flow, gql_execute, execute_rest_post, hfs,
          ha0, ha1d, ha2, hs0, hs1d, hs2, hs3, hs4, htr, hri, htitle]
  refine ⟨?_, hlen, ?_⟩
  · rw [htrace]; simp
  · intro i hi hi2
    obtain ⟨srid, res, rid, nm, h1, h2, h3, h4, hentry⟩ := hel i hi hi2
    constructor
    · intro v hv
      simp only [List.get_eq_getElem] at hv
      rw [hentry]
      simp [dict_index, jget, hv]
    · intro hv
      simp only [List.get_eq_getElem] at hv
      rw [hentry]
      simp [dict_index, jget, hv]

theorem submit_flow_similarity_defaults_witness :
    dict_index (.jobj [
        ("assignmentSubmissionResourceId", JVal.jstr "r1"),
        ("resourceId", JVal.jstr "R1"),
        ("fileName", JVal.jstr "essay.docx"),
        ("similarityReportStatus", JVal.jstr "NOT_SUBMITTED")])
      "similarityReportStatus" = .ok (.jstr "NOT_SUBMITTED") ∧
    Effect.restPost "submit"
        "/api/v1/orchestrate/resource/assignment_resource/S1/submit"
        (.jobj [
          ("classId", .jstr "cl1"),
          ("className", .jstr "Class One"),
          ("assessmentId", .jstr "AX"),
          ("assessmentTitle", .jstr "Essay"),
          ("requiresLopeswrite",
            (py_get (.jobj [("title", JVal.jstr "Essay")])
              "requiresLopesWrite").getD (.jbool false)),
          ("resourceInfo", .jarr [.jobj [
            ("assignmentSubmissionResourceId", JVal.jstr "r1"),
            ("resourceId", JVal.jstr "R1"),
            ("fileName", JVal.jstr "essay.docx"),
            ("similarityReportStatus", JVal.jstr "NOT_SUBMITTED")]])]) ∈
      (submit_assignment_flow "cl1" "Class One" "slug1" "AX"
        (.ok [("data", JVal.jobj [("assessment",
          JVal.jobj [("title", JVal.jstr "Essay")])])])
        (.ok [("data", JVal.jobj [("assignmentSubmission", exSubmission)])])
        (.ok (.jobj [("status", .jstr "SUBMITTED")]))).2 := by
  have h := submit_flow_similarity_defaults "cl1" "Class One" "slug1" "AX"
    [("data", JVal.jobj [("assessment", JVal.jobj [("title", JVal.jstr "Essay")])])]
    (JVal.jobj [("assessment", JVal.jobj [("title", JVal.jstr "Essay")])])
    (JVal.jobj [("title", JVal.jstr "Essay")]) (JVal.jstr "Essay")
    [("data", JVal.jobj [("assignmentSubmission", exSubmission)])]
    (JVal.jobj [("assignmentSubmission", exSubmission)])
    exSubmission (JVal.jstr "S1") [exResource]
    [.jobj [
      ("assignmentSubmissionResourceId", JVal.jstr "r1"),
      ("resourceId", JVal.jstr "R1"),
      ("fileName", JVal.jstr "essay.docx"),
      ("similarityReportStatus", JVal.jstr "NOT_SUBMITTED")]]
    (.ok (.jobj [("status", .jstr "SUBMITTED")]))
    rfl rfl rfl rfl rfl rfl rfl rfl (List.cons_ne_nil _ _) rfl rfl
  refine ⟨((h.2.2 0 (by decide) (by decide)).2 (by rfl)), h.1⟩
